import Mathlib

/-!
Verification of the Python_data_fetcher repository's fetch-orchestration core.

The definitions below are a shallow embedding of the Python sources:
`DataFetcher_Constants.py`, `DataFetcher_Utilities.py`, `DF_YFinance.py`,
`DF_TheMarker.py`, `DataFetcher_Async.py` and `main.py`.  Dates are modelled
as integer day numbers where arithmetic on them matters, and as strings where
the code only compares or stores them.  Machine floats of the source carry
exact decimal values in every scenario relevant here, so they are modelled
as rationals.  External effects (HTTP pages, the market-data provider, the
rendered chart) are parameters of the embedded functions, supplied as data
that the embedded control flow inspects exactly as the source does.
-/

namespace DataFetcher

/-- The `E_FetchType` enum of `DataFetcher_Constants.py`. -/
inductive E_FetchType where
  | NULL
  | YFINANCE
  | TASE_FAST
  | TASE_HISTORICAL
deriving DecidableEq, Repr

/-- Constant `MAX_CONCURRENT_BROWSERS = 4` of `DataFetcher_Constants.py`
("Maximum concurrent browser instances (Selenium)"). -/
def MAX_CONCURRENT_BROWSERS : ℕ := 4

/-- Constant `MAX_CONCURRENT_REQUESTS = 5` of `DataFetcher_Constants.py`. -/
def MAX_CONCURRENT_REQUESTS : ℕ := 5

/-- Constant `MAX_ATTEMPTS = 3` of `DataFetcher_Constants.py`. -/
def MAX_ATTEMPTS : ℕ := 3

/-- Constant `BYPASS_ASYNC_CHECKUP = False` of `DataFetcher_Constants.py`. -/
def BYPASS_ASYNC_CHECKUP : Bool := false

/-- The `fetchRequest` dataclass of `DataFetcher_Utilities.py`, with the same
field defaults (`success: bool = True`, `fetched_price`/`expense_rate`
optional). -/
structure fetchRequest where
  indicator : String
  name : String := ""
  date : String := ""
  fetched_price : Option ℚ := none
  expense_rate : Option ℚ := none
  actual_date : String := ""
  success : Bool := true
  message : String := ""
  currency : String := ""
deriving DecidableEq, Repr

/-- The `data_fetcher_flags` dataclass of `DataFetcher_Utilities.py`; the
module-level `FLAGS = data_fetcher_flags()` makes one process-global mutable
instance, which the embedding threads explicitly through the functions that
read or write it. -/
structure data_fetcher_flags where
  ASYNC_AVAILABLE : Bool := false
  ASYNC_MODE : Bool := false
  ASYNC_FAILED : Bool := false
  NEED_HISTORICAL : Bool := false
  NEED_YFINANCE : Bool := false
  NEED_TASE_FAST : Bool := false
deriving DecidableEq, Repr

/-- Python `str.isdigit` restricted to ASCII content: true iff the string is
non-empty and every character is a decimal digit (expressed over the
character list of the string). -/
def pyIsDigit (s : String) : Bool := !s.data.isEmpty && s.data.all Char.isDigit

/-- Function `has_tase_indicators` of `DataFetcher_Utilities.py`: whether any indicator
is all-digits, together with the per-indicator flags. -/
def has_tase_indicators (indicators : List String) : Bool × List Bool :=
  let is_tase := indicators.map pyIsDigit
  (is_tase.any id, is_tase)

/-- The body of the `for i in range(N_indicators)` loop of
`classify_fetch_types` (`DataFetcher_Utilities.py` lines 212-224), iterated
left to right over the per-indicator `is_tase_indicator` flags, threading the
global `FLAGS` state and emitting the `fetch_types` entries in order. -/
def classify_loop (is_historical : Bool) :
    data_fetcher_flags → List Bool → data_fetcher_flags × List E_FetchType
  | fl, [] => (fl, [])
  | fl, tase :: rest =>
    if tase then
      let ft := if is_historical then E_FetchType.TASE_HISTORICAL else E_FetchType.TASE_FAST
      let fl' :=
        if !fl.NEED_HISTORICAL && ft = E_FetchType.TASE_HISTORICAL then
          { fl with NEED_HISTORICAL := true }
        else if !fl.NEED_TASE_FAST && ft = E_FetchType.TASE_FAST then
          { fl with NEED_TASE_FAST := true }
        else fl
      let r := classify_loop is_historical fl' rest
      (r.1, ft :: r.2)
    else
      let fl' := if !fl.NEED_YFINANCE then { fl with NEED_YFINANCE := true } else fl
      let r := classify_loop is_historical fl' rest
      (r.1, E_FetchType.YFINANCE :: r.2)

/-- Function `classify_fetch_types` of `DataFetcher_Utilities.py`.  `today` stands for
`date.today().strftime(GENERAL_DATE_FORMAT)`, a string in `MM/DD/YYYY`
format.  Returns the updated global flags together with the fetch types. -/
def classify_fetch_types (fl : data_fetcher_flags) (indicators : List String)
    (target_date : String) (today : String) : data_fetcher_flags × List E_FetchType :=
  let p := has_tase_indicators indicators
  let is_historical := p.1 && target_date != today
  classify_loop is_historical fl p.2

/-- The per-indicator classification rule that `classify_fetch_types`
implements, extracted for statements about single list positions. -/
def classify_rule (is_historical : Bool) (tase : Bool) : E_FetchType :=
  if tase then
    (if is_historical then E_FetchType.TASE_HISTORICAL else E_FetchType.TASE_FAST)
  else E_FetchType.YFINANCE

/-- The loop of `make_fetch_caches` (`DataFetcher_Utilities.py` lines
236-244): walk the indicators with their original index `i`, create a fresh
`fetchRequest(indicator, date=target_date)` for each, and append `(i,
request)` to the cache of its fetch type (a `TASE_FAST` request additionally
gets `actual_date = target_date`). -/
def make_fetch_caches_loop (target_date : String) :
    ℕ → List String → List E_FetchType →
    List (ℕ × fetchRequest) × List (ℕ × fetchRequest) × List (ℕ × fetchRequest)
  | _, [], _ => ([], [], [])
  | _, _ :: _, [] => ([], [], [])
  | i, indicator :: inds, ft :: fts =>
    let request : fetchRequest := { indicator := indicator, date := target_date }
    let r := make_fetch_caches_loop target_date (i + 1) inds fts
    match ft with
    | E_FetchType.YFINANCE => ((i, request) :: r.1, r.2.1, r.2.2)
    | E_FetchType.TASE_FAST =>
      (r.1, (i, { request with actual_date := target_date }) :: r.2.1, r.2.2)
    | E_FetchType.TASE_HISTORICAL => (r.1, r.2.1, (i, request) :: r.2.2)
    | E_FetchType.NULL => r

/-- Function `make_fetch_caches` of `DataFetcher_Utilities.py`. -/
def make_fetch_caches (indicators : List String) (target_date : String)
    (fetch_types : List E_FetchType) :
    List (ℕ × fetchRequest) × List (ℕ × fetchRequest) × List (ℕ × fetchRequest) :=
  make_fetch_caches_loop target_date 0 indicators fetch_types

/-- The `data` sub-dictionary built by `initialize_output_dict`
(`DataFetcher_Utilities.py` lines 74-86). -/
structure OutputData where
  indicators : List String := []
  names : List String := []
  fetched_prices : List (Option ℚ) := []
  expense_rates : List (Option ℚ) := []
  actual_dates : List String := []
  currencies : List String := []
  messages : List String := []
  date : Option String := none
deriving DecidableEq, Repr

/-- The output dictionary built by `initialize_output_dict`
(`DataFetcher_Utilities.py`): status assumed `"success"` with code 200. -/
structure Output where
  status : String := "success"
  status_code : ℕ := 200
  message : String := "Data fetched without errors"
  data : OutputData := {}
deriving DecidableEq, Repr

/-- Function `initialize_output_dict` of `DataFetcher_Utilities.py`. -/
def initialize_output_dict : Output := {}

/-- The overall-status update shared verbatim by `data_fetcher_manager`
(`main.py` lines 192-195) and `data_fetcher_manager_async`
(`DataFetcher_Async.py` lines 291-294):

`if any(not fetch for fetch in fetch_success): status = "partial_success"`
`elif all(not fetch for fetch in fetch_success): status = "failed"`

applied to the pre-existing status field (initially `"success"`). -/
def update_overall_status (status : String) (fetch_success : List Bool) : String :=
  if fetch_success.any (fun b => !b) then "partial_success"
  else if fetch_success.all (fun b => !b) then "failed"
  else status

/-- Scatter step shared by both orchestrators: `results[i] = request` for
each `(i, request)` pair of a work cache whose requests have been put through
the fetch transformation `upd` (the in-place mutation a fetch function
performs on its request object). -/
def scatter_results (upd : fetchRequest → fetchRequest)
    (cache : List (ℕ × fetchRequest)) (results : List fetchRequest) :
    List fetchRequest :=
  cache.foldl (fun rs p => rs.set p.1 (upd p.2)) results

/-- Function `should_use_async_in_cloud` of `DataFetcher_Utilities.py`: async
processing is used when there is more than one indicator (or the bypass
constant is set). -/
def should_use_async_in_cloud (indicators : List String) : Bool :=
  BYPASS_ASYNC_CHECKUP || decide (indicators.length > 1)

/-- The sequential orchestrator `data_fetcher_manager` of `main.py` (its
fallback path, lines 149-195).  The three fetch backends are parameters
`yfUpd`, `fastUpd`, `histUpd`: each maps a dispatched `fetchRequest` to the
mutated record the corresponding Python fetch function leaves behind.  The
function consumes and returns the global `FLAGS` state together with the
mutated output dictionary. -/
def data_fetcher_manager (fl : data_fetcher_flags) (today : String)
    (yfUpd fastUpd histUpd : fetchRequest → fetchRequest) (out : Output) :
    data_fetcher_flags × Output :=
  let indicators := out.data.indicators
  let target := out.data.date.getD ""
  let N := indicators.length
  let results : List fetchRequest := List.replicate N { indicator := "" }
  let c := classify_fetch_types fl indicators target today
  let fl := c.1
  let caches := make_fetch_caches indicators target c.2
  let results := if fl.NEED_YFINANCE then scatter_results yfUpd caches.1 results else results
  let results := if fl.NEED_TASE_FAST then scatter_results fastUpd caches.2.1 results else results
  let results := if fl.NEED_HISTORICAL then scatter_results histUpd caches.2.2 results else results
  let fetch_success := results.map (fun r => r.success)
  let d := { out.data with
    fetched_prices := out.data.fetched_prices ++ results.map (fun r => r.fetched_price)
    expense_rates := out.data.expense_rates ++ results.map (fun r => r.expense_rate)
    names := out.data.names ++ results.map (fun r => r.name)
    actual_dates := out.data.actual_dates ++ results.map (fun r => r.actual_date)
    currencies := out.data.currencies ++ results.map (fun r => r.currency)
    messages := out.data.messages ++ results.map (fun r => r.message) }
  (fl, { out with data := d, status := update_overall_status out.status fetch_success })

/-- The async orchestrator: `fetch_indicators_async` followed by the
populate step of `data_fetcher_manager_async` (`DataFetcher_Async.py` lines
207-294).  Classification, cache construction and the index-aligned scatter
are the same as the sequential path; the populate loop appends
`fetched_prices`, `expense_rates`, `names`, `actual_dates` and `messages`
for each result — and, exactly as in the source, nothing to `currencies`. -/
def data_fetcher_manager_async (fl : data_fetcher_flags) (today : String)
    (yfUpd fastUpd histUpd : fetchRequest → fetchRequest) (out : Output) :
    data_fetcher_flags × Output :=
  let indicators := out.data.indicators
  let target := out.data.date.getD ""
  let N := indicators.length
  let results : List fetchRequest := List.replicate N { indicator := "" }
  let c := classify_fetch_types fl indicators target today
  let fl := c.1
  let caches := make_fetch_caches indicators target c.2
  let results := if fl.NEED_YFINANCE then scatter_results yfUpd caches.1 results else results
  let results := if fl.NEED_TASE_FAST then scatter_results fastUpd caches.2.1 results else results
  let results := if fl.NEED_HISTORICAL then scatter_results histUpd caches.2.2 results else results
  let fetch_success := results.map (fun r => r.success)
  let d := { out.data with
    fetched_prices := out.data.fetched_prices ++ results.map (fun r => r.fetched_price)
    expense_rates := out.data.expense_rates ++ results.map (fun r => r.expense_rate)
    names := out.data.names ++ results.map (fun r => r.name)
    actual_dates := out.data.actual_dates ++ results.map (fun r => r.actual_date)
    messages := out.data.messages ++ results.map (fun r => r.message) }
  (fl, { out with data := d, status := update_overall_status out.status fetch_success })

/-- Function `data_fetcher_manager` of `main.py`, entry dispatch (lines 137-147): try
the async path when `should_use_async_in_cloud` holds, async is available
and has not previously failed (setting `FLAGS.ASYNC_MODE = True`), otherwise
fall through to the sequential path. -/
def data_fetcher_manager_dispatch (fl : data_fetcher_flags) (today : String)
    (yfUpd fastUpd histUpd : fetchRequest → fetchRequest) (out : Output) :
    data_fetcher_flags × Output :=
  if should_use_async_in_cloud out.data.indicators && fl.ASYNC_AVAILABLE && !fl.ASYNC_FAILED then
    data_fetcher_manager_async { fl with ASYNC_MODE := true } today yfUpd fastUpd histUpd out
  else
    data_fetcher_manager fl today yfUpd fastUpd histUpd out

/-- The `data` object of a request body (`{"indicators": [...], "date": ...}`);
either key may be absent. -/
structure ReqData where
  indicators : Option (List String) := none
  date : Option String := none
deriving DecidableEq, Repr

/-- A parsed request body: the `data` key may be absent. -/
structure ReqJson where
  data : Option ReqData := none
deriving DecidableEq, Repr

/-- The Flask endpoint `python_data_fetch` of `main.py` (lines 31-76): a
body that fails to parse (`none`) or lacks the `data` key returns a 400
error without fetching; otherwise `indicators` defaults to `[]` when the
key is absent, `date` defaults to `today` when absent or blank, and
`data_fetcher_manager` is run on the output dictionary. -/
def python_data_fetch (fl : data_fetcher_flags) (today : String)
    (yfUpd fastUpd histUpd : fetchRequest → fetchRequest)
    (body : Option ReqJson) : data_fetcher_flags × Output :=
  let output := initialize_output_dict
  match body with
  | none =>
    (fl, { output with
           status := "error"
           status_code := 400
           message := "Invalid input structure. Expected format: ..." })
  | some rj =>
    match rj.data with
    | none =>
      (fl, { output with
             status := "error"
             status_code := 400
             message := "Invalid input structure. Expected format: ..." })
    | some d =>
      let indicators := d.indicators.getD []
      let target :=
        match d.date with
        | none => today
        | some t => if t.data.all Char.isWhitespace then today else t
      let output := { output with data := { output.data with
                        indicators := indicators, date := some target } }
      data_fetcher_manager_dispatch fl today yfUpd fastUpd histUpd output

/-! ## Market-data client (`DF_YFinance.py`)

A provider close-price series is a list of `(date, value)` pairs in index
order; dates are integer day numbers and a `none` value is a `NaN` cell. -/

/-- A close-price series as returned by the provider: `(date, close)` rows in
index order, `none` modelling `NaN`. -/
abbrev Series := List (ℤ × Option ℚ)

/-- Numpy `np.argmin`: the index of the first occurrence of the minimum of a list
(numpy returns the first minimising index).  Defined as 0 on `[]`. -/
def np_argmin : List ℤ → ℕ
  | [] => 0
  | x :: xs =>
    match xs with
    | [] => 0
    | _ :: _ =>
      let k := np_argmin xs
      if x ≤ xs.getD k 0 then 0 else k + 1

/-- Function `find_closest_date` of `DataFetcher_Utilities.py` (lines 104-132): on an
empty frame return `None`; drop all-NaN rows; if nothing valid remains return
`None`; otherwise return the date at `np.argmin(np.abs(dates - target))`. -/
def find_closest_date (data_frame : Series) (target_date : ℤ) : Option ℤ :=
  if data_frame = [] then none
  else
    let valid_data := data_frame.filter (fun e => e.2.isSome)
    if valid_data = [] then none
    else
      let dates := valid_data.map Prod.fst
      some (dates.getD (np_argmin (dates.map (fun d => |d - target_date|))) 0)

/-- Lookup `data.loc[closest_date]` followed by `safe_extract_value`
(`DataFetcher_Utilities.py` lines 134-150): the value stored at the first
row carrying the given date, `None` when the cell is `NaN` or absent. -/
def safe_extract_value (data : Series) (d : ℤ) : Option ℚ :=
  match data.find? (fun e => e.1 = d) with
  | some e => e.2
  | none => none

/-- Per-ticker metadata the provider exposes on demand (long name,
expense-ratio, currency — spec §6's market-data provider contract). -/
structure TickerInfo where
  longName : String := ""
  expense_pct : Option ℚ := none
  currency : String := ""
deriving DecidableEq, Repr

/-- Modelled from the spec: `Utilities.extract_info_data` is called from
`DF_YFinance.py` (lines 127 and 157) but its definition is not among the
provided sources.  Per spec §3 and §6 the provider exposes per-ticker
long-name, expense-ratio metadata and a currency, which this call copies
into the request's `name`, `expense_rate` and `currency` fields, leaving
`success`, `actual_date`, `fetched_price` and `message` untouched. -/
def extract_info_data (request : fetchRequest) (info : TickerInfo) : fetchRequest :=
  { request with
    name := info.longName
    expense_rate := info.expense_pct
    currency := info.currency }

/-- Day-number dates rendered back to strings
(`safe_extract_date_string`). -/
def date_string (d : ℤ) : String := toString d

/-- Function `process_successful_request` of `DF_YFinance.py` (lines 120-137): record
the resolved date and price, copy ticker metadata when the ticker handle is
available, then set an exact-date message iff the resolved date equals the
target date, and mark success. -/
def process_successful_request (request : fetchRequest) (data : Series)
    (closest_date target_date : ℤ) (symbol : String)
    (info : Option TickerInfo) : fetchRequest :=
  let request := { request with
    actual_date := date_string closest_date
    fetched_price := safe_extract_value data closest_date }
  let request := match info with
    | some i => extract_info_data request i
    | none => request
  let msg :=
    if closest_date = target_date then
      "Data fetched for " ++ symbol ++ " on exact date " ++ date_string target_date
    else
      "Exact date " ++ date_string target_date ++ " not available for " ++ symbol ++
        ". Using closest date " ++ date_string closest_date
  { request with message := msg, success := true }

/-- Function `try_inception_date` of `DF_YFinance.py` (lines 139-162): when the ticker
handle is available and `history(period="max")` is non-empty, record its
first row's date and close price, copy ticker metadata, set the
inception-substitution message and mark success; otherwise leave the request
untouched. -/
def try_inception_date (request : fetchRequest) (symbol : String)
    (ticker : Option (Series × TickerInfo)) : fetchRequest :=
  match ticker with
  | none => request
  | some (inception_data, info) =>
    if inception_data = [] then request
    else
      let first := inception_data.headD (0, none)
      let request := { request with
        actual_date := date_string first.1
        fetched_price := first.2 }
      let request := extract_info_data request info
      { request with
        message := "Target date not available for " ++ symbol ++
          ". Using inception date " ++ date_string first.1
        success := true }

/-- The per-symbol branch of `fetch_yfinance_data` (`DF_YFinance.py` lines
96-104): if `find_closest_date` resolves a date the request is processed as
successful, otherwise the inception-date fallback is tried. -/
def process_symbol (request : fetchRequest) (data : Series) (target_date : ℤ)
    (symbol : String) (ticker : Option (Series × TickerInfo)) : fetchRequest :=
  match find_closest_date data target_date with
  | some closest_date =>
    process_successful_request request data closest_date target_date symbol
      (ticker.map Prod.snd)
  | none => try_inception_date request symbol ticker

/-! ## TASE fast client (`DF_TheMarker.py` `fetch_tase_fast`)

A fetched detail page is abstracted to the extraction results the source's
regexes produce on it: the title-name capture, the price capture (the
`NUMBER_PATTERN` group of the price span, `none` when the pattern does not
match) and the computed expense rate. -/

/-- Digits-only string to a natural number (the numeric core of Python's
`float` on the comma-stripped `NUMBER_PATTERN` capture). -/
def parse_digits (s : String) : Option ℕ :=
  if !s.data.isEmpty && s.data.all Char.isDigit then
    some (s.data.foldl (fun n c => 10 * n + (c.toNat - 48)) 0)
  else none

/-- Python `float(...)` on strings of the shape produced by stripping commas
from a `NUMBER_PATTERN` capture: an integer part with an optional fractional
part, read exactly. -/
def pyFloat (s : String) : Option ℚ :=
  match (s.data.splitOn (Char.ofNat 46)).map (fun l => String.mk l) with
  | [w] => (parse_digits w).map (fun n => (n : ℚ))
  | [w, f] =>
    match parse_digits w, parse_digits f with
    | some a, some b => some ((a : ℚ) + (b : ℚ) / (10 : ℚ) ^ f.length)
    | _, _ => none
  | _ => none

/-- Python `.replace(",", "")` on the price capture. -/
def strip_commas (s : String) : String :=
  String.mk (s.data.filter (fun c => c != Char.ofNat 44))

/-- Function `extract_current_price_from_html` of `DataFetcher_Utilities.py` (lines
294-313), over the price-span regex capture of the page: strip commas, parse
as float, and divide by 100 ("Israeli security prices are priced in ILAs");
`None` when the pattern did not match or parsing fails. -/
def extract_current_price_from_html (price_capture : Option String) : Option ℚ :=
  match price_capture with
  | none => none
  | some s =>
    match pyFloat (strip_commas s) with
    | some v => some (v / 100)
    | none => none

/-- A TASE detail page abstracted to its extraction results: HTTP status,
the `extract_security_name_from_html` result (`""` when the title pattern
does not match), the price-span capture, and the `get_expense_rate` sum. -/
structure TasePage where
  status_code : ℕ
  title_name : String
  price_capture : Option String
  expense_rate : ℚ
deriving DecidableEq, Repr

/-- Outcome of one `session.get` attempt in `fetch_tase_fast`. -/
inductive HttpOutcome where
  | page (p : TasePage)
  | timeout
  | requestError (e : String)
  | otherError (e : String)
deriving DecidableEq, Repr

/-- Function `add_attempt2msg` of `DataFetcher_Utilities.py` (lines 248-260). -/
def add_attempt2msg (request : fetchRequest) (attempt : ℕ) : fetchRequest :=
  if attempt < MAX_ATTEMPTS - 1 then
    { request with message := (request.message ++ " - Retrying (" ++
        toString (attempt + 1) ++ "/" ++ toString MAX_ATTEMPTS ++ ")") }
  else
    { request with message := (request.message ++ " - Giving up after " ++
        toString MAX_ATTEMPTS ++ " attempts") }

/-- One iteration of the `for attempt in range(MAX_ATTEMPTS)` loop of
`fetch_tase_fast` (`DF_TheMarker.py` lines 29-90).  Returns the mutated
request and whether the loop `break`s (a successful fetch). -/
def fetch_tase_fast_attempt (request : fetchRequest) (attempt : ℕ)
    (out : HttpOutcome) : fetchRequest × Bool :=
  match out with
  | HttpOutcome.timeout =>
    (add_attempt2msg { request with
      message := "Request timeout - page took too long to load"
      success := false } attempt, false)
  | HttpOutcome.requestError e =>
    (add_attempt2msg { request with
      message := "Request failed: " ++ e
      success := false } attempt, false)
  | HttpOutcome.otherError e =>
    (add_attempt2msg { request with
      message := "Unexpected error in TASE fast fetch: " ++ e
      success := false } attempt, false)
  | HttpOutcome.page p =>
    if p.status_code ≠ 200 then
      (add_attempt2msg { request with
        message := "HTTP " ++ toString p.status_code ++ ": Failed to fetch page"
        success := false } attempt, false)
    else
      let request := { request with name := p.title_name }
      if request.name = "" then
        (add_attempt2msg { request with
          message := "Failed to extract security name"
          success := false } attempt, false)
      else
        let request := { request with
          fetched_price := extract_current_price_from_html p.price_capture }
        if request.fetched_price = none then
          (add_attempt2msg { request with
            message := "Failed to extract price"
            success := false } attempt, false)
        else
          ({ request with
            expense_rate := some p.expense_rate
            message := "Price fetched successfully (fast method)"
            success := true }, true)

/-- Function `fetch_tase_fast` of `DF_TheMarker.py`: up to `MAX_ATTEMPTS` attempts,
stopping at the first success.  `outs` gives the HTTP outcome each attempt
observes. -/
def fetch_tase_fast (request : fetchRequest) (outs : ℕ → HttpOutcome) : fetchRequest :=
  ((List.range MAX_ATTEMPTS).foldl
    (fun (st : fetchRequest × Bool) attempt =>
      if st.2 then st
      else fetch_tase_fast_attempt st.1 attempt (outs attempt))
    (request, false)).1

/-! ## TASE historical search engine (`DF_TheMarker.py` `fetch_tase_historical`,
lines 196-271; the dedicated-browser variant in `DataFetcher_Utilities.py`
lines 404-493 runs the identical walk)

The rendered chart is abstracted to the sequence of dates its data points
display when focused (`dates`, integer day numbers, index order earliest to
latest) and the corresponding displayed raw prices (`prices`). -/

/-- State of the heuristic walk: mirrors the Python locals `current_idx`
(an `int` that steps past either end of the chart), `visited`,
`min_delta_days`, `best_match_date` and `best_match_price`. -/
structure WalkState where
  current_idx : ℤ
  visited : List ℤ
  min_delta_days : ℤ
  best_match_date : String
  best_match_price : Option ℚ
deriving DecidableEq, Repr

/-- Python `int(...)` on a real value: truncation toward zero. -/
def pyTrunc (q : ℚ) : ℤ := if 0 ≤ q then ⌊q⌋ else -⌊-q⌋

/-- The `while current_idx not in visited and 0 <= current_idx < N_DataTips`
loop of the historical search (`DF_TheMarker.py` lines 224-258): focus the
current point, update the running best match when its day-distance to the
target improves, break on an exact match, otherwise step `+1`/`-1` toward
the target and break once `len(visited) > cap`.  `fuel` bounds the recursion
of the embedding; `none` means the fuel ran out before the loop exited. -/
def walk_loop (dates : List ℤ) (prices : List ℚ) (target initial_guess : ℤ)
    (cap : ℕ) : ℕ → WalkState → Option WalkState
  | 0, _ => none
  | fuel + 1, st =>
    if st.visited.contains st.current_idx ||
        !(0 ≤ st.current_idx && st.current_idx < (dates.length : ℤ)) then
      some st
    else
      let visited := st.visited ++ [st.current_idx]
      let current_date := dates.getD st.current_idx.toNat 0
      let temp_delta_days := |current_date - target|
      let st :=
        if temp_delta_days < st.min_delta_days then
          { st with
            min_delta_days := temp_delta_days
            best_match_date := date_string current_date
            best_match_price := some ((prices.getD st.current_idx.toNat 0) / 100) }
        else st
      if temp_delta_days = 0 then some { st with visited := visited }
      else if current_date < target then
        let st' := { st with visited := visited, current_idx := st.current_idx + 1 }
        if visited.length > cap then some st'
        else walk_loop dates prices target initial_guess cap fuel st'
      else if current_date > target then
        let st' := { st with visited := visited, current_idx := st.current_idx - 1 }
        if visited.length > cap then some st'
        else walk_loop dates prices target initial_guess cap fuel st'
      else
        some { st with visited := visited, current_idx := initial_guess }

/-- Result of the search part of a historical fetch attempt. -/
inductive SearchResult where
  | error (msg : String)
  | earliest (d : ℤ) (price : ℚ)
  | walked (st : WalkState)
  | fuelOut
deriving DecidableEq, Repr

/-- The exploration cap `min(20, N_DataTips // 2)` of the walk. -/
def search_cap (N : ℕ) : ℕ := min 20 (N / 2)

/-- Fuel given to the embedded walk: enough for the cap plus the final
iteration plus one, shown below never to run out. -/
def search_fuel (N : ℕ) : ℕ := search_cap N + 2

/-- The search part of `fetch_tase_historical` (`DF_TheMarker.py` lines
192-261): focus point 0; if its date is already past the target, report the
earliest point directly; otherwise compute the proportional initial guess
`int((target - d0).days / (today - d0).days * N)` clamped to `[0, N-1]` and
run the walk from it with `visited = set()`, `min_delta_days` the full span,
and the best match initialised to the request's own date and price.  An
empty point collection is the exception path ("could not find valid data
points").  One deliberate deviation: when `today - d0 = 0` the source would
raise `ZeroDivisionError` into the same exception path; the rational
division here yields guess 0 instead — the walk bound proved below does not
depend on the guess, so the claims are unaffected. -/
def fetch_tase_historical_search (request_date : String) (request_price : Option ℚ)
    (dates : List ℤ) (prices : List ℚ) (target today : ℤ) : SearchResult :=
  match dates with
  | [] => SearchResult.error "Could not find any valid data points in chart"
  | d0 :: _ =>
    if d0 > target then SearchResult.earliest d0 ((prices.headD 0) / 100)
    else
      let N := dates.length
      let span_delta_days := today - d0
      let guess0 := pyTrunc (((target - d0 : ℤ) : ℚ) / ((span_delta_days : ℤ) : ℚ) * (N : ℚ))
      let initial_guess := max 0 (min guess0 ((N : ℤ) - 1))
      match walk_loop dates prices target initial_guess (search_cap N) (search_fuel N)
        { current_idx := initial_guess
          visited := []
          min_delta_days := span_delta_days
          best_match_date := request_date
          best_match_price := request_price } with
      | some st => SearchResult.walked st
      | none => SearchResult.fuelOut

/-! ## Concurrency model (`DataFetcher_Async.py` `fetch_indicators_async`)

In the live async path each TASE-historical indicator becomes an
`asyncio.create_task(fetch_tase_historical_data_async(request))`, whose body
only awaits `loop.run_in_executor(None, fetch_tase_historical, request)`:
no semaphore or pool slot is acquired anywhere on this path (the
`asyncio.Semaphore` machinery exists only inside the commented-out
`AsyncDataFetcher` class, and `MAX_CONCURRENT_BROWSERS` is referenced
nowhere).  The only gate on simultaneous execution is therefore the event
loop's default `ThreadPoolExecutor`, whose worker count defaults to
`min(32, os.cpu_count() + 4)`.  Each task, while running, holds one open
dedicated browser (`fetch_tase_historical` constructs its own
`SilentBrowser` in `ASYNC_MODE`).  The scheduler is modelled as a
transition system over the number of pending and running tasks. -/

/-- CPython's default `ThreadPoolExecutor` worker count,
`min(32, os.cpu_count() + 4)`. -/
def default_executor_max_workers (cpu : ℕ) : ℕ := min 32 (cpu + 4)

/-- Pending/running task counts of the dispatched historical fetches; each
running task has one open dedicated rendering session. -/
structure ExecutorState where
  pending : ℕ
  running : ℕ
deriving DecidableEq, Repr

/-- A scheduling step of the default executor: any pending task may start
whenever a worker is free (nothing else gates it on the live code path),
and any running task may finish. -/
inductive executor_step (max_workers : ℕ) : ExecutorState → ExecutorState → Prop
  | start (s : ExecutorState) : 0 < s.pending → s.running < max_workers →
      executor_step max_workers s ⟨s.pending - 1, s.running + 1⟩
  | finish (s : ExecutorState) : 0 < s.running →
      executor_step max_workers s ⟨s.pending, s.running - 1⟩

/-- The strategy-dispatch branches an orchestrator run executes, as guarded
in `fetch_indicators_async` (`DataFetcher_Async.py` lines 231-245) and in
the sequential `data_fetcher_manager` (`main.py` lines 160-177): one block
per strategy, entered iff the corresponding global `NEED_*` flag is set. -/
def dispatch_branches (fl : data_fetcher_flags) : List E_FetchType :=
  (if fl.NEED_YFINANCE then [E_FetchType.YFINANCE] else []) ++
  (if fl.NEED_TASE_FAST then [E_FetchType.TASE_FAST] else []) ++
  (if fl.NEED_HISTORICAL then [E_FetchType.TASE_HISTORICAL] else [])

/-! ## Helper lemmas -/

theorem classify_loop_snd (ih : Bool) :
    ∀ (l : List Bool) (fl : data_fetcher_flags),
      (classify_loop ih fl l).2 = l.map (classify_rule ih) := by
  intro l
  induction l with
  | nil => intro fl; simp [classify_loop]
  | cons b rest IH =>
    intro fl
    cases b <;> simp only [classify_loop, classify_rule, List.map_cons] <;>
      simp [IH, classify_rule]

theorem classify_loop_mono_hist (ih : Bool) :
    ∀ (l : List Bool) (fl : data_fetcher_flags), fl.NEED_HISTORICAL = true →
      (classify_loop ih fl l).1.NEED_HISTORICAL = true := by
  intro l
  induction l with
  | nil => intro fl h; simpa [classify_loop] using h
  | cons b rest IH =>
    intro fl h
    cases b <;> simp only [classify_loop] <;> apply IH <;> split_ifs <;> simp [h]

theorem classify_loop_mono_fast (ih : Bool) :
    ∀ (l : List Bool) (fl : data_fetcher_flags), fl.NEED_TASE_FAST = true →
      (classify_loop ih fl l).1.NEED_TASE_FAST = true := by
  intro l
  induction l with
  | nil => intro fl h; simpa [classify_loop] using h
  | cons b rest IH =>
    intro fl h
    cases b <;> simp only [classify_loop] <;> apply IH <;> split_ifs <;> simp [h]

theorem classify_loop_mono_yf (ih : Bool) :
    ∀ (l : List Bool) (fl : data_fetcher_flags), fl.NEED_YFINANCE = true →
      (classify_loop ih fl l).1.NEED_YFINANCE = true := by
  intro l
  induction l with
  | nil => intro fl h; simpa [classify_loop] using h
  | cons b rest IH =>
    intro fl h
    cases b <;> simp only [classify_loop] <;> apply IH <;> split_ifs <;> simp [h]

theorem np_argmin_nil : np_argmin [] = 0 := rfl

theorem np_argmin_singleton (x : ℤ) : np_argmin [x] = 0 := rfl

theorem np_argmin_cons_cons (x y : ℤ) (t : List ℤ) :
    np_argmin (x :: y :: t) =
      if x ≤ (y :: t).getD (np_argmin (y :: t)) 0 then 0 else np_argmin (y :: t) + 1 :=
  rfl

theorem np_argmin_lt_length : ∀ (l : List ℤ), l ≠ [] → np_argmin l < l.length := by
  intro l
  induction l with
  | nil => intro h; exact absurd rfl h
  | cons x xs IH =>
    intro _
    cases xs with
    | nil => simp [np_argmin_singleton]
    | cons y t =>
      rw [np_argmin_cons_cons]
      split
      · simp
      · have := IH (by simp)
        simp only [List.length_cons] at this ⊢
        omega

theorem np_argmin_le : ∀ (l : List ℤ) (j : ℕ), j < l.length →
    l.getD (np_argmin l) 0 ≤ l.getD j 0 := by
  intro l
  induction l with
  | nil => intro j hj; simp at hj
  | cons x xs IH =>
    intro j hj
    cases xs with
    | nil =>
      have hj0 : j = 0 := by
        simp only [List.length_cons, List.length_nil] at hj
        omega
      subst hj0
      simp [np_argmin_singleton]
    | cons y t =>
      rw [np_argmin_cons_cons]
      split
      · rename_i hc
        cases j with
        | zero => simp
        | succ j' =>
          have hj' : j' < (y :: t).length := by
            simp only [List.length_cons] at hj ⊢
            omega
          calc (x :: y :: t).getD 0 0 = x := by simp
            _ ≤ (y :: t).getD (np_argmin (y :: t)) 0 := hc
            _ ≤ (y :: t).getD j' 0 := IH j' hj'
            _ = (x :: y :: t).getD (j' + 1) 0 := by simp [List.getD_cons_succ]
      · rename_i hc
        push_neg at hc
        cases j with
        | zero =>
          simp only [List.getD_cons_succ, List.getD_cons_zero]
          exact le_of_lt hc
        | succ j' =>
          have hj' : j' < (y :: t).length := by
            simp only [List.length_cons] at hj ⊢
            omega
          simpa [List.getD_cons_succ] using IH j' hj'

theorem np_argmin_first : ∀ (l : List ℤ) (j : ℕ), j < np_argmin l →
    l.getD (np_argmin l) 0 < l.getD j 0 := by
  intro l
  induction l with
  | nil => intro j hj; simp [np_argmin_nil] at hj
  | cons x xs IH =>
    intro j hj
    cases xs with
    | nil => simp [np_argmin_singleton] at hj
    | cons y t =>
      rw [np_argmin_cons_cons] at hj ⊢
      split at hj
      · simp at hj
      · rename_i hc
        push_neg at hc
        rw [if_neg (not_le.mpr hc)]
        cases j with
        | zero => simpa [List.getD_cons_succ] using hc
        | succ j' =>
          have hj' : j' < np_argmin (y :: t) := by omega
          simpa [List.getD_cons_succ] using IH j' hj'

theorem getD_map_abs (dates : List ℤ) (target : ℤ) (k : ℕ) (hk : k < dates.length) :
    (dates.map (fun d => |d - target|)).getD k 0 = |dates.getD k 0 - target| := by
  rw [List.getD_eq_getElem?_getD, List.getD_eq_getElem?_getD, List.getElem?_map,
    List.getElem?_eq_getElem hk]
  simp

theorem find_closest_date_exact (data : Series) (target : ℤ) (v : ℚ)
    (hmem : (target, some v) ∈ data) : find_closest_date data target = some target := by
  have hne : data ≠ [] := List.ne_nil_of_mem hmem
  have hvmem : (target, some v) ∈ data.filter (fun e => e.2.isSome) :=
    List.mem_filter.mpr ⟨hmem, by simp⟩
  have hvne : data.filter (fun e => e.2.isSome) ≠ [] := List.ne_nil_of_mem hvmem
  unfold find_closest_date
  rw [if_neg hne, if_neg hvne]
  set valid := data.filter (fun e => e.2.isSome) with hvalid
  set dates := valid.map Prod.fst with hdates
  have htmem : target ∈ dates := by
    rw [hdates]
    exact List.mem_map_of_mem _ hvmem
  have hdne : dates ≠ [] := List.ne_nil_of_mem htmem
  obtain ⟨j, hj, hjv⟩ := List.mem_iff_getElem.mp htmem
  set dists := dates.map (fun d => |d - target|) with hdists
  have hdistlen : dists.length = dates.length := by rw [hdists]; simp
  have hdistne : dists ≠ [] := by
    rw [hdists]
    simpa using hdne
  set k := np_argmin dists with hk
  have hklen : k < dists.length := np_argmin_lt_length dists hdistne
  have hkd : k < dates.length := by omega
  have hdj : dists.getD j 0 = 0 := by
    rw [hdists, getD_map_abs dates target j hj]
    have : dates.getD j 0 = target := by
      rw [List.getD_eq_getElem?_getD, List.getElem?_eq_getElem hj, hjv]
      rfl
    rw [this]
    simp
  have hmin : dists.getD k 0 ≤ dists.getD j 0 := np_argmin_le dists j (by omega)
  have hnonneg : (0 : ℤ) ≤ dists.getD k 0 := by
    rw [hdists, getD_map_abs dates target k hkd]
    exact abs_nonneg _
  have hzero : dists.getD k 0 = 0 := le_antisymm (by rw [hdj] at hmin; exact hmin) hnonneg
  have hkt : dates.getD k 0 = target := by
    rw [hdists, getD_map_abs dates target k hkd] at hzero
    have := abs_eq_zero.mp hzero
    omega
  show some (dates.getD k 0) = some target
  rw [hkt]

/-! ## Claim theorems -/

/-- C1.  The overall status derived by both orchestrators violates the
claimed taxonomy: on a request where no indicator's fetch succeeded
(`fetch_success` all false, non-empty), `any(not fetch)` is already true, so
both `data_fetcher_manager` (`main.py` 192-195) and
`data_fetcher_manager_async` (`DataFetcher_Async.py` 290-294) set
`"partial_success"`; the `elif`'s `"failed"` branch is unreachable for a
non-empty list.  Evaluated here at one all-failed single-indicator request
on the sequential path and one all-failed two-indicator request on the
async path. -/
theorem overall_status_all_failed_is_partial_success :
    update_overall_status "success" [false] = "partial_success" ∧
    (data_fetcher_manager {} "10/12/2026"
        (fun r => { r with success := false, message := "boom" })
        (fun r => { r with success := false, message := "boom" })
        (fun r => { r with success := false, message := "boom" })
        { initialize_output_dict with
          data := { initialize_output_dict.data with
                    indicators := ["AAPL"], date := some "01/15/2024" } }).2.status =
      "partial_success" ∧
    (data_fetcher_manager_async { ASYNC_AVAILABLE := true, ASYNC_MODE := true } "10/12/2026"
        (fun r => { r with success := false, message := "boom" })
        (fun r => { r with success := false, message := "boom" })
        (fun r => { r with success := false, message := "boom" })
        { initialize_output_dict with
          data := { initialize_output_dict.data with
                    indicators := ["AAPL", "GOOG"], date := some "01/15/2024" } }).2.status =
      "partial_success" ∧
    "partial_success" ≠ "failed" := by
  refine ⟨by with_unfolding_all rfl, by with_unfolding_all rfl, by with_unfolding_all rfl,
    by decide⟩

/-- C2.  The async populate step (`data_fetcher_manager_async`,
`DataFetcher_Async.py` lines 279-294) appends `fetched_prices`,
`expense_rates`, `names`, `actual_dates` and `messages` for each of the `N`
results but never appends to `currencies`, so for a two-indicator request
handled by the async path the `currencies` output array has 0 entries while
every other per-field array has 2 — the claimed all-fields length-`N`
invariant fails (the sequential path, `main.py` 182-190, does append
currencies). -/
theorem async_output_currencies_empty :
    ((data_fetcher_manager_async { ASYNC_AVAILABLE := true, ASYNC_MODE := true } "10/12/2026"
        (fun r => { r with success := true, message := "ok", currency := "USD" })
        (fun r => { r with success := true, message := "ok", currency := "USD" })
        (fun r => { r with success := true, message := "ok", currency := "USD" })
        { initialize_output_dict with
          data := { initialize_output_dict.data with
                    indicators := ["AAPL", "GOOG"], date := some "01/15/2024" } }).2.data.indicators.length
      = 2) ∧
    ((data_fetcher_manager_async { ASYNC_AVAILABLE := true, ASYNC_MODE := true } "10/12/2026"
        (fun r => { r with success := true, message := "ok", currency := "USD" })
        (fun r => { r with success := true, message := "ok", currency := "USD" })
        (fun r => { r with success := true, message := "ok", currency := "USD" })
        { initialize_output_dict with
          data := { initialize_output_dict.data with
                    indicators := ["AAPL", "GOOG"], date := some "01/15/2024" } }).2.data.names.length
      = 2) ∧
    ((data_fetcher_manager_async { ASYNC_AVAILABLE := true, ASYNC_MODE := true } "10/12/2026"
        (fun r => { r with success := true, message := "ok", currency := "USD" })
        (fun r => { r with success := true, message := "ok", currency := "USD" })
        (fun r => { r with success := true, message := "ok", currency := "USD" })
        { initialize_output_dict with
          data := { initialize_output_dict.data with
                    indicators := ["AAPL", "GOOG"], date := some "01/15/2024" } }).2.data.messages.length
      = 2) ∧
    ((data_fetcher_manager_async { ASYNC_AVAILABLE := true, ASYNC_MODE := true } "10/12/2026"
        (fun r => { r with success := true, message := "ok", currency := "USD" })
        (fun r => { r with success := true, message := "ok", currency := "USD" })
        (fun r => { r with success := true, message := "ok", currency := "USD" })
        { initialize_output_dict with
          data := { initialize_output_dict.data with
                    indicators := ["AAPL", "GOOG"], date := some "01/15/2024" } }).2.data.currencies.length
      = 0) ∧
    (0 : ℕ) ≠ 2 := by
  refine ⟨by with_unfolding_all rfl, by with_unfolding_all rfl, by with_unfolding_all rfl,
    by with_unfolding_all rfl, by decide⟩

/-- C3.  `classify_fetch_types` assigns, at every input position `i`:
`TASE_FAST` iff the indicator is all-digits and the target date string
equals today's `MM/DD/YYYY` string, `TASE_HISTORICAL` iff all-digits and the
date differs, `YFINANCE` (the market API) otherwise — and never leaves
`NULL`. -/
theorem classify_fetch_types_rule (fl : data_fetcher_flags) (indicators : List String)
    (target_date today : String) (i : ℕ) (h : i < indicators.length) :
    (classify_fetch_types fl indicators target_date today).2.length = indicators.length ∧
    (classify_fetch_types fl indicators target_date today).2.getD i E_FetchType.NULL =
      (if pyIsDigit (indicators.getD i "") then
        (if target_date = today then E_FetchType.TASE_FAST else E_FetchType.TASE_HISTORICAL)
       else E_FetchType.YFINANCE) ∧
    (classify_fetch_types fl indicators target_date today).2.getD i E_FetchType.NULL ≠
      E_FetchType.NULL := by
  have hsnd : (classify_fetch_types fl indicators target_date today).2 =
      indicators.map (fun s =>
        classify_rule ((has_tase_indicators indicators).1 && target_date != today)
          (pyIsDigit s)) := by
    unfold classify_fetch_types has_tase_indicators
    rw [classify_loop_snd, List.map_map]
    rfl
  have hlen : (classify_fetch_types fl indicators target_date today).2.length =
      indicators.length := by rw [hsnd, List.length_map]
  have hget : (classify_fetch_types fl indicators target_date today).2.getD i
      E_FetchType.NULL =
      classify_rule ((has_tase_indicators indicators).1 && target_date != today)
        (pyIsDigit (indicators.getD i "")) := by
    rw [hsnd]
    rw [List.getD_eq_getElem?_getD, List.getD_eq_getElem?_getD, List.getElem?_map]
    rw [List.getElem?_eq_getElem h]
    simp
  have hmem : pyIsDigit (indicators.getD i "") = true →
      (has_tase_indicators indicators).1 = true := by
    intro hd
    unfold has_tase_indicators
    simp only [List.any_eq_true]
    refine ⟨pyIsDigit (indicators.getD i ""), ?_, hd⟩
    have : indicators.getD i "" = indicators.get ⟨i, h⟩ := by
      rw [List.getD_eq_getElem?_getD, List.getElem?_eq_getElem h]
      rfl
    rw [this]
    exact List.mem_map_of_mem _ (List.get_mem indicators i h)
  refine ⟨hlen, ?_, ?_⟩
  · rw [hget]
    rcases Bool.eq_false_or_eq_true (pyIsDigit (indicators.getD i "")) with hd | hd
    · rw [hmem hd, hd]
      by_cases ht : target_date = today
      · simp [classify_rule, ht]
      · simp [classify_rule, ht, bne_iff_ne]
    · rw [hd]; simp [classify_rule]
  · rw [hget]
    unfold classify_rule
    split
    · split <;> simp
    · simp

/-- Witness for C3 at a concrete input: the all-digits indicator
`"5138094"` with a non-today target date classifies to `TASE_HISTORICAL`. -/
theorem classify_fetch_types_rule_witness :
    (classify_fetch_types {} ["5138094"] "01/05/2021" "10/12/2026").2.length =
      (["5138094"] : List String).length ∧
    (classify_fetch_types {} ["5138094"] "01/05/2021" "10/12/2026").2.getD 0 E_FetchType.NULL =
      (if pyIsDigit ((["5138094"] : List String).getD 0 "") then
        (if "01/05/2021" = "10/12/2026" then E_FetchType.TASE_FAST
         else E_FetchType.TASE_HISTORICAL)
       else E_FetchType.YFINANCE) ∧
    (classify_fetch_types {} ["5138094"] "01/05/2021" "10/12/2026").2.getD 0 E_FetchType.NULL ≠
      E_FetchType.NULL :=
  classify_fetch_types_rule {} ["5138094"] "01/05/2021" "10/12/2026" 0 (by decide)

/-- C9.  A request body whose `data` object exists but lacks the
`indicators` key is not rejected: `python_data_fetch` (`main.py` lines
44-67) defaults the missing key to `[]`, runs the manager, and returns
`status_code` 200 (with the overall status mutated to `"failed"` by the
empty-list quirk of the status update) — not a 400-class response. -/
theorem missing_indicators_returns_200 :
    ((python_data_fetch { ASYNC_AVAILABLE := true } "10/12/2026"
        (fun r => r) (fun r => r) (fun r => r)
        (some { data := some { indicators := none, date := some "01/15/2024" } })).2.status_code
      = 200) ∧
    ((python_data_fetch { ASYNC_AVAILABLE := true } "10/12/2026"
        (fun r => r) (fun r => r) (fun r => r)
        (some { data := some { indicators := none, date := some "01/15/2024" } })).2.status
      = "failed") ∧
    ¬(400 ≤ 200 ∧ 200 < 500) := by
  refine ⟨by with_unfolding_all rfl, by with_unfolding_all rfl, by decide⟩

/-- C10.  The `NEED_*` flags of the global `FLAGS` object are monotone:
`classify_fetch_types` only ever sets them to `True` and never resets them
(first three conjuncts); consequently once a run has needed a strategy,
every later run's orchestrator executes that strategy's dispatch branch
whatever its own indicators are (fourth conjunct); and concretely, the same
argument list `["AAPL"]` leads to the historical dispatch branch being
skipped on a fresh flag state but executed after a prior run classified a
TASE-historical indicator — classification is not a pure function of its
arguments across runs. -/
theorem need_flags_sticky_dispatch
    (fl : data_fetcher_flags) (indicators : List String) (target_date today : String)
    (hh : fl.NEED_HISTORICAL = true) (hf : fl.NEED_TASE_FAST = true)
    (hy : fl.NEED_YFINANCE = true) :
    ((classify_fetch_types fl indicators target_date today).1.NEED_HISTORICAL = true) ∧
    ((classify_fetch_types fl indicators target_date today).1.NEED_TASE_FAST = true) ∧
    ((classify_fetch_types fl indicators target_date today).1.NEED_YFINANCE = true) ∧
    (E_FetchType.TASE_HISTORICAL ∈
      dispatch_branches (classify_fetch_types fl indicators target_date today).1) ∧
    (E_FetchType.TASE_HISTORICAL ∉
      dispatch_branches (classify_fetch_types {} ["AAPL"] "01/15/2024" "10/12/2026").1) ∧
    (E_FetchType.TASE_HISTORICAL ∈
      dispatch_branches (classify_fetch_types
        (classify_fetch_types {} ["5138094"] "01/05/2021" "10/12/2026").1
        ["AAPL"] "01/15/2024" "10/12/2026").1) := by
  have h1 : (classify_fetch_types fl indicators target_date today).1.NEED_HISTORICAL = true :=
    classify_loop_mono_hist _ _ _ hh
  have h2 : (classify_fetch_types fl indicators target_date today).1.NEED_TASE_FAST = true :=
    classify_loop_mono_fast _ _ _ hf
  have h3 : (classify_fetch_types fl indicators target_date today).1.NEED_YFINANCE = true :=
    classify_loop_mono_yf _ _ _ hy
  refine ⟨h1, h2, h3, ?_, by decide, by decide⟩
  simp [dispatch_branches, h1]

/-- Witness for C10: a flag state with all three `NEED_*` flags set keeps
them set across a classification of `["AAPL"]`, whose dispatch therefore
includes the historical branch. -/
theorem need_flags_sticky_dispatch_witness :
    ((classify_fetch_types
        { NEED_HISTORICAL := true, NEED_TASE_FAST := true, NEED_YFINANCE := true }
        ["AAPL"] "01/15/2024" "10/12/2026").1.NEED_HISTORICAL = true) ∧
    ((classify_fetch_types
        { NEED_HISTORICAL := true, NEED_TASE_FAST := true, NEED_YFINANCE := true }
        ["AAPL"] "01/15/2024" "10/12/2026").1.NEED_TASE_FAST = true) ∧
    ((classify_fetch_types
        { NEED_HISTORICAL := true, NEED_TASE_FAST := true, NEED_YFINANCE := true }
        ["AAPL"] "01/15/2024" "10/12/2026").1.NEED_YFINANCE = true) ∧
    (E_FetchType.TASE_HISTORICAL ∈
      dispatch_branches (classify_fetch_types
        { NEED_HISTORICAL := true, NEED_TASE_FAST := true, NEED_YFINANCE := true }
        ["AAPL"] "01/15/2024" "10/12/2026").1) ∧
    (E_FetchType.TASE_HISTORICAL ∉
      dispatch_branches (classify_fetch_types {} ["AAPL"] "01/15/2024" "10/12/2026").1) ∧
    (E_FetchType.TASE_HISTORICAL ∈
      dispatch_branches (classify_fetch_types
        (classify_fetch_types {} ["5138094"] "01/05/2021" "10/12/2026").1
        ["AAPL"] "01/15/2024" "10/12/2026").1) :=
  need_flags_sticky_dispatch
    { NEED_HISTORICAL := true, NEED_TASE_FAST := true, NEED_YFINANCE := true }
    ["AAPL"] "01/15/2024" "10/12/2026" rfl rfl rfl

/-- C4.  `fetch_tase_fast` on a page whose price-span capture parses (after
comma stripping) to the numeric value `v` succeeds with
`fetched_price = v / 100`: `extract_current_price_from_html` divides the raw
minor-currency-unit value by 100 exactly once before it is stored. -/
theorem fetch_tase_fast_price_is_raw_div_100 (request : fetchRequest) (p : TasePage)
    (s : String) (v : ℚ) (h200 : p.status_code = 200) (hname : p.title_name ≠ "")
    (hcap : p.price_capture = some s) (hv : pyFloat (strip_commas s) = some v) :
    (fetch_tase_fast request (fun _ => HttpOutcome.page p)).success = true ∧
    (fetch_tase_fast request (fun _ => HttpOutcome.page p)).fetched_price =
      some (v / 100) := by
  have hextract : extract_current_price_from_html p.price_capture = some (v / 100) := by
    rw [hcap]
    simp only [extract_current_price_from_html]
    rw [hv]
  have hatt : fetch_tase_fast_attempt request 0 (HttpOutcome.page p) =
      ({ request with
          name := p.title_name
          fetched_price := some (v / 100)
          expense_rate := some p.expense_rate
          message := "Price fetched successfully (fast method)"
          success := true }, true) := by
    simp only [fetch_tase_fast_attempt]
    rw [h200]
    simp [hname, hextract]
  have hrange : List.range MAX_ATTEMPTS = [0, 1, 2] := by decide
  unfold fetch_tase_fast
  rw [hrange]
  simp only [List.foldl_cons, List.foldl_nil]
  norm_num [hatt]

/-- Witness for C4 at a concrete page: raw price text `"1,234.5"` parses to
`2469/2` and is recorded as `2469/200 = 12.345`. -/
theorem fetch_tase_fast_price_is_raw_div_100_witness :
    (fetch_tase_fast { indicator := "5138094" }
        (fun _ => HttpOutcome.page ⟨200, "Harel ETF", some "1,234.5", 0⟩)).success = true ∧
    (fetch_tase_fast { indicator := "5138094" }
        (fun _ => HttpOutcome.page ⟨200, "Harel ETF", some "1,234.5", 0⟩)).fetched_price =
      some ((2469 / 2 : ℚ) / 100) :=
  fetch_tase_fast_price_is_raw_div_100 { indicator := "5138094" }
    ⟨200, "Harel ETF", some "1,234.5", 0⟩ "1,234.5" (2469 / 2) rfl (by decide) rfl
    (by with_unfolding_all rfl)

/-- C5.  When the provider's close-price series holds a valid entry exactly
on the target date, `find_closest_date` resolves that exact date, and
`process_successful_request` (via `process_symbol`) marks the request
successful with `actual_date` equal to the target date and the exact-date
message; the closest-date substitution message is produced only when the
resolved date differs from the target; and `np_argmin` — the tie-break of
`find_closest_date` — returns the first index attaining the minimum
(strictly smaller than every earlier entry, no larger than every entry). -/
theorem market_exact_date_first_tie (request : fetchRequest) (data : Series)
    (target : ℤ) (v : ℚ) (symbol : String) (ticker : Option (Series × TickerInfo))
    (hmem : (target, some v) ∈ data) :
    find_closest_date data target = some target ∧
    (process_symbol request data target symbol ticker).success = true ∧
    (process_symbol request data target symbol ticker).actual_date = date_string target ∧
    (process_symbol request data target symbol ticker).message =
      "Data fetched for " ++ symbol ++ " on exact date " ++ date_string target ∧
    (∀ (request' : fetchRequest) (data' : Series) (closest target' : ℤ)
        (symbol' : String) (info : Option TickerInfo), closest ≠ target' →
        (process_successful_request request' data' closest target' symbol' info).message =
          "Exact date " ++ date_string target' ++ " not available for " ++ symbol' ++
            ". Using closest date " ++ date_string closest) ∧
    (∀ (l : List ℤ) (j : ℕ), j < l.length → l.getD (np_argmin l) 0 ≤ l.getD j 0) ∧
    (∀ (l : List ℤ) (j : ℕ), j < np_argmin l → l.getD (np_argmin l) 0 < l.getD j 0) := by
  have hfc := find_closest_date_exact data target v hmem
  have hps : process_symbol request data target symbol ticker =
      process_successful_request request data target target symbol
        (ticker.map Prod.snd) := by
    unfold process_symbol
    rw [hfc]
  refine ⟨hfc, ?_, ?_, ?_, ?_, np_argmin_le, np_argmin_first⟩
  · rw [hps]
    unfold process_successful_request
    cases ticker.map Prod.snd <;> simp [extract_info_data]
  · rw [hps]
    unfold process_successful_request
    cases ticker.map Prod.snd <;> simp [extract_info_data]
  · rw [hps]
    unfold process_successful_request
    cases ticker.map Prod.snd <;> simp [extract_info_data]
  · intro request' data' closest target' symbol' info hne
    unfold process_successful_request
    cases info <;> simp [extract_info_data, hne]

/-- Witness for C5: a one-row series holding the target date exactly. -/
theorem market_exact_date_first_tie_witness :
    find_closest_date [((4 : ℤ), some (7 : ℚ))] 4 = some 4 ∧
    (process_symbol { indicator := "AAPL" } [((4 : ℤ), some (7 : ℚ))] 4 "AAPL" none).success
      = true ∧
    (process_symbol { indicator := "AAPL" } [((4 : ℤ), some (7 : ℚ))] 4 "AAPL" none).actual_date
      = date_string 4 ∧
    (process_symbol { indicator := "AAPL" } [((4 : ℤ), some (7 : ℚ))] 4 "AAPL" none).message
      = "Data fetched for " ++ "AAPL" ++ " on exact date " ++ date_string 4 ∧
    (∀ (request' : fetchRequest) (data' : Series) (closest target' : ℤ)
        (symbol' : String) (info : Option TickerInfo), closest ≠ target' →
        (process_successful_request request' data' closest target' symbol' info).message =
          "Exact date " ++ date_string target' ++ " not available for " ++ symbol' ++
            ". Using closest date " ++ date_string closest) ∧
    (∀ (l : List ℤ) (j : ℕ), j < l.length → l.getD (np_argmin l) 0 ≤ l.getD j 0) ∧
    (∀ (l : List ℤ) (j : ℕ), j < np_argmin l → l.getD (np_argmin l) 0 < l.getD j 0) :=
  market_exact_date_first_tie { indicator := "AAPL" } [((4 : ℤ), some (7 : ℚ))] 4 7
    "AAPL" none (by decide)

/-- C6.  When no expanding window yields data (`find_closest_date` returns
`None` for the symbol) and the ticker's full `history(period="max")` is
non-empty, `try_inception_date` (via `process_symbol`) marks the request
successful, with `actual_date` the first recorded date, `fetched_price` the
close value of that first row, and the inception-substitution message — a
recovered condition, not a failure. -/
theorem inception_fallback_success (request : fetchRequest) (data : Series)
    (target : ℤ) (symbol : String) (hist : Series) (info : TickerInfo)
    (hnone : find_closest_date data target = none) (hne : hist ≠ []) :
    (process_symbol request data target symbol (some (hist, info))).success = true ∧
    (process_symbol request data target symbol (some (hist, info))).actual_date =
      date_string (hist.headD (0, none)).1 ∧
    (process_symbol request data target symbol (some (hist, info))).fetched_price =
      (hist.headD (0, none)).2 ∧
    (process_symbol request data target symbol (some (hist, info))).message =
      "Target date not available for " ++ symbol ++ ". Using inception date " ++
        date_string (hist.headD (0, none)).1 := by
  have hps : process_symbol request data target symbol (some (hist, info)) =
      try_inception_date request symbol (some (hist, info)) := by
    unfold process_symbol
    rw [hnone]
  rw [hps]
  unfold try_inception_date
  simp [hne, extract_info_data]

/-- Witness for C6: an empty window series with a one-row full history. -/
theorem inception_fallback_success_witness :
    (process_symbol { indicator := "AAPL" } [] 0 "AAPL"
        (some ([((5 : ℤ), some (3 : ℚ))], {}))).success = true ∧
    (process_symbol { indicator := "AAPL" } [] 0 "AAPL"
        (some ([((5 : ℤ), some (3 : ℚ))], {}))).actual_date =
      date_string (([((5 : ℤ), some (3 : ℚ))] : Series).headD (0, none)).1 ∧
    (process_symbol { indicator := "AAPL" } [] 0 "AAPL"
        (some ([((5 : ℤ), some (3 : ℚ))], {}))).fetched_price =
      (([((5 : ℤ), some (3 : ℚ))] : Series).headD (0, none)).2 ∧
    (process_symbol { indicator := "AAPL" } [] 0 "AAPL"
        (some ([((5 : ℤ), some (3 : ℚ))], {}))).message =
      "Target date not available for " ++ "AAPL" ++ ". Using inception date " ++
        date_string (([((5 : ℤ), some (3 : ℚ))] : Series).headD (0, none)).1 :=
  inception_fallback_success { indicator := "AAPL" } [] 0 "AAPL"
    [((5 : ℤ), some (3 : ℚ))] {} (by with_unfolding_all rfl) (by decide)

theorem walk_loop_ne_none (dates : List ℤ) (prices : List ℚ) (target g : ℤ)
    (cap : ℕ) : ∀ (fuel : ℕ) (st : WalkState), st.visited.length ≤ cap →
    cap + 2 ≤ st.visited.length + fuel →
    walk_loop dates prices target g cap fuel st ≠ none := by
  intro fuel
  induction fuel with
  | zero => intro st h1 h2; omega
  | succ n IH =>
    intro st h1 h2
    simp only [walk_loop]
    split
    · simp
    · split
      · simp
      · split
        · split
          · simp
          · rename_i hnc
            apply IH
            · simp only [List.length_append, List.length_cons, List.length_nil] at hnc ⊢
              omega
            · simp only [List.length_append, List.length_cons, List.length_nil]
              omega
        · split
          · split
            · simp
            · rename_i hnc
              apply IH
              · simp only [List.length_append, List.length_cons, List.length_nil] at hnc ⊢
                omega
              · simp only [List.length_append, List.length_cons, List.length_nil]
                omega
          · simp

theorem walk_loop_visited_le (dates : List ℤ) (prices : List ℚ) (target g : ℤ)
    (cap : ℕ) : ∀ (fuel : ℕ) (st st' : WalkState), st.visited.length ≤ cap →
    walk_loop dates prices target g cap fuel st = some st' →
    st'.visited.length ≤ cap + 1 := by
  intro fuel
  induction fuel with
  | zero => intro st st' h1 heq; simp [walk_loop] at heq
  | succ n IH =>
    intro st st' h1 heq
    simp only [walk_loop] at heq
    split at heq
    · cases heq
      omega
    · split at heq
      · cases heq
        simp only [List.length_append, List.length_cons, List.length_nil]
        omega
      · split at heq
        · split at heq
          · cases heq
            simp only [List.length_append, List.length_cons, List.length_nil]
            omega
          · rename_i hnc
            apply IH _ _ _ heq
            simp only [List.length_append, List.length_cons, List.length_nil] at hnc ⊢
            omega
        · split at heq
          · split at heq
            · cases heq
              simp only [List.length_append, List.length_cons, List.length_nil]
              omega
            · rename_i hnc
              apply IH _ _ _ heq
              simp only [List.length_append, List.length_cons, List.length_nil] at hnc ⊢
              omega
          · cases heq
            simp only [List.length_append, List.length_cons, List.length_nil]
            omega

/-- C7 (amended).  The historical-search walk always terminates: on every
chart, target and span the search reaches one of its exit conditions before
the embedded fuel `search_cap N + 2` runs out; and the number of distinct
points visited never exceeds `min(20, N // 2) + 1` — one more than the cap,
because the source checks `len(visited) > min(20, N // 2)` only after adding
the freshly visited index. -/
theorem historical_walk_terminates_bounded (request_date : String)
    (request_price : Option ℚ) (dates : List ℤ) (prices : List ℚ) (target today : ℤ) :
    fetch_tase_historical_search request_date request_price dates prices target today ≠
      SearchResult.fuelOut ∧
    (∀ st : WalkState,
      fetch_tase_historical_search request_date request_price dates prices target today =
        SearchResult.walked st → st.visited.length ≤ search_cap dates.length + 1) := by
  cases dates with
  | nil =>
    refine ⟨by simp [fetch_tase_historical_search], ?_⟩
    intro st h
    simp [fetch_tase_historical_search] at h
  | cons d0 rest =>
    by_cases hd : d0 > target
    · refine ⟨by simp [fetch_tase_historical_search, hd], ?_⟩
      intro st h
      simp [fetch_tase_historical_search, hd] at h
    · constructor
      · simp only [fetch_tase_historical_search, if_neg hd]
        split
        · simp
        · rename_i hnone
          exact absurd hnone (walk_loop_ne_none _ _ _ _ _ _ _ (by simp)
            (by simp [search_fuel]))
      · intro st h
        simp only [fetch_tase_historical_search, if_neg hd] at h
        split at h
        · rename_i st0 hsome
          cases h
          exact walk_loop_visited_le _ _ _ _ _ _ _ _ (by simp) hsome
        · simp at h

/-- Witness for C7 at a concrete chart: a three-point chart walk exits
before the fuel and visits at most `search_cap 3 + 1` points. -/
theorem historical_walk_terminates_bounded_witness :
    fetch_tase_historical_search "t" none [0, 1, 2] [1, 1, 1] 10 20 ≠
      SearchResult.fuelOut ∧
    (∀ st : WalkState,
      fetch_tase_historical_search "t" none [0, 1, 2] [1, 1, 1] 10 20 =
        SearchResult.walked st →
        st.visited.length ≤ search_cap ([0, 1, 2] : List ℤ).length + 1) :=
  historical_walk_terminates_bounded "t" none [0, 1, 2] [1, 1, 1] 10 20

/-- Counterexample to C7 as stated: on a six-point chart (cap
`min(20, 6 // 2) = 3`) with every point before the target, the walk visits
the four distinct points `[0, 1, 2, 3]` — strictly more than the cap —
because the cap check runs only after the fourth visit was added. -/
theorem historical_walk_cap_exceeded :
    fetch_tase_historical_search "05/20/2000" none [0, 1, 2, 3, 4, 5]
        [1, 1, 1, 1, 1, 1] 50 600 =
      SearchResult.walked
        { current_idx := 4, visited := [0, 1, 2, 3], min_delta_days := 47,
          best_match_date := "3", best_match_price := some (1 / 100) } ∧
    ({ current_idx := 4, visited := [0, 1, 2, 3], min_delta_days := 47,
       best_match_date := "3",
       best_match_price := some (1 / 100) } : WalkState).visited.length = 4 ∧
    ¬((4 : ℕ) ≤ search_cap ([0, 1, 2, 3, 4, 5] : List ℤ).length) := by
  refine ⟨by with_unfolding_all rfl, by decide, by decide⟩

/-- C8.  In the live async path nothing bounds concurrently open rendering
sessions to the configured pool size: dispatching 50 TASE-historical tasks
through the default executor of a 1-CPU machine (worker count
`min(32, 1 + 4) = 5`) can reach a state with 5 simultaneously running
tasks — 5 open dedicated browsers — exceeding `MAX_CONCURRENT_BROWSERS = 4`,
which no live code path reads. -/
theorem fifty_historical_tasks_exceed_browser_pool :
    Relation.ReflTransGen (executor_step (default_executor_max_workers 1))
      ⟨50, 0⟩ ⟨45, 5⟩ ∧ MAX_CONCURRENT_BROWSERS < 5 := by
  constructor
  · exact Relation.ReflTransGen.tail
      (Relation.ReflTransGen.tail
        (Relation.ReflTransGen.tail
          (Relation.ReflTransGen.tail
            (Relation.ReflTransGen.tail Relation.ReflTransGen.refl
              (executor_step.start ⟨50, 0⟩ (by decide) (by decide)))
            (executor_step.start ⟨49, 1⟩ (by decide) (by decide)))
          (executor_step.start ⟨48, 2⟩ (by decide) (by decide)))
        (executor_step.start ⟨47, 3⟩ (by decide) (by decide)))
      (executor_step.start ⟨46, 4⟩ (by decide) (by decide))
  · decide

end DataFetcher
